import Mathlib

/-!
Shallow embedding of the two notification tools of this repository,
`src/tools/messaging/discord_webhook.py` and
`src/tools/messaging/telegram_symphony.py`, together with proofs of the
lifecycle, configuration-validation and response-classification properties
of their shared managed-resource pattern.

Modelling conventions:
* A Python call that may let an exception escape to its caller is modelled
  with `Except`: `.error e` means the call raises `e` uncaught, `.ok v`
  means it returns `v` normally.
* The aiohttp transport is an external collaborator; a send operation
  performs exactly one `session.post`, so it is parameterised by the
  outcome of that post (`PostOutcome`).  The send result records the
  request payload actually handed to the transport, making payload
  properties (truncation) observable.
* Log lines are collected as a list of the formatted messages.
-/

namespace Messaging

/-- Python exceptions relevant to the send path.  `resourceError` is the
`RuntimeError` raised by `_ensure_session`; `clientError` is
`aiohttp.ClientError`; `otherError` is any other `Exception`. -/
inductive PyError where
  | resourceError (msg : String)
  | clientError (msg : String)
  | otherError (msg : String)
deriving DecidableEq, Repr

/-- An `aiohttp.ClientSession` as far as these tools observe it: its
`closed` flag, plus a counter of `close()` calls made on it, used to state
the no-double-close property. -/
structure Session where
  closed : Bool
  closeCount : Nat
deriving DecidableEq, Repr

/-- A freshly constructed `aiohttp.ClientSession()`: open, never closed. -/
def Session.fresh : Session :=
  { closed := false, closeCount := 0 }

/-- `await session.close()`: marks the session closed. -/
def Session.doClose (s : Session) : Session :=
  { closed := true, closeCount := s.closeCount + 1 }

/-- The session-management state of a `Tools` instance: `self.session`
(`none` models Python `None`) and `self._session_externally_managed`.
This part of `Tools` is textually identical in the two scripts. -/
structure ToolsState where
  session : Option Session
  session_externally_managed : Bool
deriving DecidableEq, Repr

/-- The session handling of `Tools.__init__`: a supplied session is stored
and marked externally managed (`if session:` — a `ClientSession` object is
always truthy), otherwise the session is left `None` to be created lazily
and marked internally managed. -/
def Tools.init (session : Option Session) : ToolsState :=
  match session with
  | some s => { session := some s, session_externally_managed := true }
  | none => { session := none, session_externally_managed := false }

/-- The guard `self.session is None or self.session.closed`. -/
def sessionAbsentOrClosed (st : ToolsState) : Bool :=
  match st.session with
  | none => true
  | some s => s.closed

/-- `Tools._ensure_session` (identical in both scripts): when the session
is missing or closed, either raise `RuntimeError` (externally managed) or
create a fresh internally managed session; otherwise do nothing. -/
def Tools.ensure_session (st : ToolsState) : Except PyError ToolsState :=
  if sessionAbsentOrClosed st then
    if st.session_externally_managed then
      .error (.resourceError "External aiohttp session is closed or was not provided.")
    else
      .ok { session := some Session.fresh, session_externally_managed := false }
  else
    .ok st

/-- `Tools.close` (identical in both scripts): close the session only when
it is internally managed, present (truthy) and open; otherwise do nothing.
The method has no raise path. -/
def Tools.close (st : ToolsState) : ToolsState :=
  match st.session with
  | some s =>
    if !st.session_externally_managed && !s.closed then
      { st with session := some s.doClose }
    else
      st
  | none => st

/-- `Tools.__aenter__`: ensure a session exists. -/
def Tools.aenter (st : ToolsState) : Except PyError ToolsState :=
  Tools.ensure_session st

/-- `Tools.__aexit__`: close the internal session if necessary. -/
def Tools.aexit (st : ToolsState) : ToolsState :=
  Tools.close st

/-- Scalar JSON values, as far as the tools inspect decoded response
bodies (truthiness of the `ok` field, rendering of `description`). -/
inductive JsonVal where
  | null
  | bool (b : Bool)
  | num (n : Int)
  | str (s : String)
deriving DecidableEq, Repr

/-- Python truthiness of a decoded JSON scalar. -/
def JsonVal.truthy : JsonVal → Bool
  | .null => false
  | .bool b => b
  | .num n => n != 0
  | .str s => s != ""

/-- How the value renders inside the Python f-string log message. -/
def JsonVal.pyStr : JsonVal → String
  | .null => "None"
  | .bool true => "True"
  | .bool false => "False"
  | .num n => toString n
  | .str s => s

/-- `dict.get(key)`: the binding of the key, if any. -/
def jsonGet (fields : List (String × JsonVal)) (key : String) : Option JsonVal :=
  (fields.find? (fun p => p.1 == key)).map (fun p => p.2)

/-- Python truthiness of `dict.get(key)` (where `None` is falsy). -/
def optTruthy : Option JsonVal → Bool
  | none => false
  | some j => j.truthy

/-- The transport response, per the collaborator interface the spec
requires: `status`, `text()`, and the decoded `json()` body
(`none` when `response.json()` raises or does not yield a JSON object). -/
structure HttpResponse where
  status : Nat
  text : String
  jsonFields : Option (List (String × JsonVal))
deriving DecidableEq, Repr

/-- Outcome of the single `session.post` a send performs: a response, a
raised `aiohttp.ClientError`, or any other raised exception. -/
inductive PostOutcome where
  | response (r : HttpResponse)
  | clientError (msg : String)
  | otherError (msg : String)
deriving DecidableEq, Repr

/-- Whether the post raised instead of producing a response. -/
def PostOutcome.isErr : PostOutcome → Bool
  | .response _ => false
  | .clientError _ => true
  | .otherError _ => true

/-- Discord `Tools.Valves`: the validated configuration. -/
structure DiscordValves where
  WEBHOOK_URL : String
deriving DecidableEq, Repr

/-- The provider URL shape checked by `validate_webhook_url`. -/
def discordWebhookUrlStart : String :=
  "https://discord.com/api/webhooks/"

/-- `Valves.validate_webhook_url`: an empty URL raises `ValueError`; a
non-empty URL that does not start with the Discord webhook URL shape is
accepted anyway, with a warning logged.  Returns the validated valves
together with the warnings emitted. -/
def DiscordValves.make (webhook_url : String) :
    Except String (DiscordValves × List String) :=
  if webhook_url == "" then
    .error "DISCORD_WEBHOOK_URL environment variable must be set."
  else if !webhook_url.startsWith discordWebhookUrlStart then
    .ok ({ WEBHOOK_URL := webhook_url },
      ["Webhook URL does not look like a standard Discord webhook URL."])
  else
    .ok ({ WEBHOOK_URL := webhook_url }, [])

/-- State after a digit has (`prev = true`) or has not (`prev = false`)
just been seen: accept the rest of a CPython integer digit sequence, in
which single underscores may only stand between digits. -/
def pyDigitsAux : List Char → Bool → Bool
  | [], prev => prev
  | c :: cs, prev =>
    if c.isDigit then pyDigitsAux cs true
    else if c == '_' && prev then pyDigitsAux cs false
    else false

/-- Whether CPython `int(s)` succeeds on the string `s` (ASCII model):
optional surrounding whitespace, an optional sign, then a non-empty digit
sequence in which single underscores may separate digits. -/
def pyIntParsable (s : String) : Bool :=
  match s.trim.data with
  | '+' :: cs => pyDigitsAux cs false
  | '-' :: cs => pyDigitsAux cs false
  | cs => pyDigitsAux cs false

/-- Telegram `Tools.Valves`: the validated configuration. -/
structure TelegramValves where
  TELEGRAM_BOT_TOKEN : String
  TELEGRAM_CHAT_ID : String
deriving DecidableEq, Repr

/-- `Valves.validate_bot_token`: the token must be non-empty. -/
def validate_bot_token (v : String) : Except String String :=
  if v == "" then
    .error "TELEGRAM_BOT_TOKEN environment variable must be set."
  else
    .ok v

/-- `Valves.validate_chat_id`: the chat id must be non-empty and accepted
by `int(v)`. -/
def validate_chat_id (v : String) : Except String String :=
  if v == "" then
    .error "TELEGRAM_CHAT_ID environment variable must be set."
  else if !pyIntParsable v then
    .error "TELEGRAM_CHAT_ID must be a valid integer representing the chat ID."
  else
    .ok v

/-- Building `Tools.Valves()` for Telegram: both field validators must
pass, in field order; pydantic raises at construction otherwise. -/
def TelegramValves.make (bot_token chat_id : String) :
    Except String TelegramValves :=
  match validate_bot_token bot_token with
  | .error e => .error e
  | .ok t =>
    match validate_chat_id chat_id with
    | .error e => .error e
    | .ok c => .ok { TELEGRAM_BOT_TOKEN := t, TELEGRAM_CHAT_ID := c }

/-- A constructed Discord `Tools` instance: validated valves plus session
state. -/
structure DiscordTools where
  valves : DiscordValves
  state : ToolsState
deriving DecidableEq, Repr

/-- Discord `Tools.__init__`: validate the configuration (raising on bad
config before any network activity — the constructor has no access to the
transport at all), then set up the session state.  Also returns the
warnings logged during validation. -/
def DiscordTools.init (webhook_url : String) (session : Option Session) :
    Except String (DiscordTools × List String) :=
  match DiscordValves.make webhook_url with
  | .error e => .error e
  | .ok (v, warns) => .ok ({ valves := v, state := Tools.init session }, warns)

/-- A constructed Telegram `Tools` instance. -/
structure TelegramTools where
  valves : TelegramValves
  state : ToolsState
deriving DecidableEq, Repr

/-- Telegram `Tools.__init__`: validate the configuration (raising on bad
config before any network activity), then set up the session state. -/
def TelegramTools.init (bot_token chat_id : String) (session : Option Session) :
    Except String TelegramTools :=
  match TelegramValves.make bot_token chat_id with
  | .error e => .error e
  | .ok v => .ok { valves := v, state := Tools.init session }

/-- What a completed send call produced: the boolean result, the instance
state afterwards, the request actually issued to the transport (`none`
when the send failed before posting), and the log lines emitted. -/
structure SendOutcome (Req : Type) where
  result : Bool
  state : ToolsState
  request : Option Req
  logs : List String
deriving DecidableEq, Repr

/-- The Discord request: target URL and the `content` field of the JSON
body `data`. -/
structure DiscordRequest where
  url : String
  content : String
deriving DecidableEq, Repr

/-- The Telegram request: target URL and the `chat_id` and `text` fields
of the JSON body `data`. -/
structure TelegramRequest where
  url : String
  chat_id : String
  text : String
deriving DecidableEq, Repr

/-- `Tools.send_message` (Discord).  The whole body runs inside
`try / except aiohttp.ClientError / except Exception`, so every raised
error — including the `RuntimeError` from `_ensure_session`, which is not
an `aiohttp.ClientError` and therefore lands in the final handler — is
converted into a `False` return plus a log line.  The `.error` case of the
codomain (an exception escaping to the caller) is never produced. -/
def Tools.send_message (st : ToolsState) (valves : DiscordValves)
    (message_content : String) (post : PostOutcome) :
    Except PyError (SendOutcome DiscordRequest) :=
  match Tools.ensure_session st with
  | .error (.clientError m) =>
    .ok { result := false, state := st, request := none,
          logs := ["AIOHTTP client error occurred: " ++ m] }
  | .error (.resourceError m) =>
    .ok { result := false, state := st, request := none,
          logs := ["An unexpected error occurred while sending the message: " ++ m] }
  | .error (.otherError m) =>
    .ok { result := false, state := st, request := none,
          logs := ["An unexpected error occurred while sending the message: " ++ m] }
  | .ok st1 =>
    let truncated := message_content.length > 2000
    let warnLogs :=
      if truncated then
        ["Message content exceeds Discord limit (2000 characters). Truncating."]
      else []
    let content := if truncated then message_content.take 2000 else message_content
    let req : DiscordRequest := { url := valves.WEBHOOK_URL, content := content }
    match post with
    | .response r =>
      if r.status == 204 then
        .ok { result := true, state := st1, request := some req,
              logs := warnLogs ++ ["Message successfully sent to Discord."] }
      else
        .ok { result := false, state := st1, request := some req,
              logs := warnLogs ++
                ["Failed to send message. Status: " ++ toString r.status ++
                  ", Response: " ++ r.text] }
    | .clientError m =>
      .ok { result := false, state := st1, request := some req,
            logs := warnLogs ++ ["AIOHTTP client error occurred: " ++ m] }
    | .otherError m =>
      .ok { result := false, state := st1, request := some req,
            logs := warnLogs ++
              ["An unexpected error occurred while sending the message: " ++ m] }

/-- Truthiness of `response_json.get("ok")` on the decoded body
(`none` models `response.json()` raising — handled by the catch-all). -/
def responseOkTruthy (jb : Option (List (String × JsonVal))) : Bool :=
  match jb with
  | none => false
  | some body => optTruthy (jsonGet body "ok")

/-- `Tools.send_telegram_message`.  Same try/except shape as the Discord
sender; on HTTP 200 the decoded body's `ok` field decides success, and on
logical failure the API-provided `description` is logged. -/
def Tools.send_telegram_message (st : ToolsState) (valves : TelegramValves)
    (message_content : String) (post : PostOutcome) :
    Except PyError (SendOutcome TelegramRequest) :=
  match Tools.ensure_session st with
  | .error (.clientError m) =>
    .ok { result := false, state := st, request := none,
          logs := ["AIOHTTP client error occurred: " ++ m] }
  | .error (.resourceError m) =>
    .ok { result := false, state := st, request := none,
          logs := ["An unexpected error occurred while sending the message: " ++ m] }
  | .error (.otherError m) =>
    .ok { result := false, state := st, request := none,
          logs := ["An unexpected error occurred while sending the message: " ++ m] }
  | .ok st1 =>
    let truncated := message_content.length > 4096
    let warnLogs :=
      if truncated then
        ["Message content exceeds Telegram limit (4096 characters). Truncating."]
      else []
    let text := if truncated then message_content.take 4096 else message_content
    let url := "https://api.telegram.org/bot" ++ valves.TELEGRAM_BOT_TOKEN ++ "/sendMessage"
    let req : TelegramRequest :=
      { url := url, chat_id := valves.TELEGRAM_CHAT_ID, text := text }
    match post with
    | .response r =>
      if r.status == 200 then
        match r.jsonFields with
        | some body =>
          if optTruthy (jsonGet body "ok") then
            .ok { result := true, state := st1, request := some req,
                  logs := warnLogs ++ ["Message successfully sent to Telegram."] }
          else
            .ok { result := false, state := st1, request := some req,
                  logs := warnLogs ++
                    ["Failed to send message. Telegram API returned error: " ++
                      ((jsonGet body "description").getD (.str "Unknown error")).pyStr] }
        | none =>
          -- `response.json()` raising lands in the final catch-all handler.
          .ok { result := false, state := st1, request := some req,
                logs := warnLogs ++
                  ["An unexpected error occurred while sending the message: response body was not a JSON object"] }
      else
        .ok { result := false, state := st1, request := some req,
              logs := warnLogs ++
                ["Failed to send message. Status: " ++ toString r.status ++
                  ", Response: " ++ r.text] }
    | .clientError m =>
      .ok { result := false, state := st1, request := some req,
            logs := warnLogs ++ ["AIOHTTP client error occurred: " ++ m] }
    | .otherError m =>
      .ok { result := false, state := st1, request := some req,
            logs := warnLogs ++
              ["An unexpected error occurred while sending the message: " ++ m] }

/-- Whether a call modelled with `Except` raises to its caller. -/
def raisesOut {α : Type} : Except PyError α → Bool
  | .error _ => true
  | .ok _ => false

/-- The boolean a send call returned (`none` when it raised instead). -/
def returnedResult {Req : Type} : Except PyError (SendOutcome Req) → Option Bool
  | .ok out => some out.result
  | .error _ => none

/-- The log lines a send call emitted. -/
def returnedLogs {Req : Type} : Except PyError (SendOutcome Req) → List String
  | .ok out => out.logs
  | .error _ => []

/-- The `content` field of the Discord request a send issued. -/
def sentContent : Except PyError (SendOutcome DiscordRequest) → Option String
  | .ok out => out.request.map DiscordRequest.content
  | .error _ => none

/-- The `text` field of the Telegram request a send issued. -/
def sentText : Except PyError (SendOutcome TelegramRequest) → Option String
  | .ok out => out.request.map TelegramRequest.text
  | .error _ => none

/-- How many times the held session has been closed. -/
def sessionCloseCount (st : ToolsState) : Nat :=
  match st.session with
  | none => 0
  | some s => s.closeCount

/-!  Concrete fixtures used to instantiate the theorems below. -/

/-- An already-closed session. -/
def closedSession : Session := { closed := true, closeCount := 1 }

/-- An open session. -/
def openSession : Session := { closed := false, closeCount := 0 }

/-- Discord valves with a well-shaped webhook URL. -/
def dvFix : DiscordValves := { WEBHOOK_URL := "https://discord.com/api/webhooks/1/a" }

/-- Telegram valves with a numeric chat id. -/
def tvFix : TelegramValves := { TELEGRAM_BOT_TOKEN := "t", TELEGRAM_CHAT_ID := "1" }

/-- A Discord success response (HTTP 204, empty body). -/
def resp204 : HttpResponse := { status := 204, text := "", jsonFields := none }

/-- A Telegram success response (HTTP 200, body with a true `ok`). -/
def respOkTrue : HttpResponse :=
  { status := 200, text := "", jsonFields := some [("ok", JsonVal.bool true)] }

/-- A Telegram logical-failure response (HTTP 200, `ok` false, with a
`description`). -/
def respOkFalse : HttpResponse :=
  { status := 200, text := "",
    jsonFields := some [("ok", JsonVal.bool false), ("description", JsonVal.str "x")] }

/-- A Telegram/Discord hard-failure response (HTTP 403). -/
def resp403 : HttpResponse :=
  { status := 403, text := "Forbidden", jsonFields := none }

/-- The state after `_ensure_session` has lazily created an internal
session. -/
def freshInternalState : ToolsState :=
  { session := some Session.fresh, session_externally_managed := false }

/-- An arbitrary Discord send outcome, used as an instantiation value. -/
def doutFix : SendOutcome DiscordRequest :=
  { result := true, state := freshInternalState, request := none, logs := [] }

/-- An arbitrary Telegram send outcome, used as an instantiation value. -/
def toutFix : SendOutcome TelegramRequest :=
  { result := true, state := freshInternalState, request := none, logs := [] }

/-!  Shared helper lemmas. -/

/-- `_ensure_session` never changes the ownership flag. -/
theorem ensure_session_flag (st st1 : ToolsState)
    (h : Tools.ensure_session st = .ok st1) :
    st1.session_externally_managed = st.session_externally_managed := by
  unfold Tools.ensure_session at h
  split at h
  · split at h
    · exact absurd h (by simp)
    · next hext =>
        simp only [Except.ok.injEq] at h
        subst h
        simp at hext
        simp [hext]
  · simp only [Except.ok.injEq] at h
    subst h
    rfl

/-- On an externally managed instance, a successful `_ensure_session` is a
no-op: the held session is never replaced. -/
theorem ensure_session_external_noop (st st1 : ToolsState)
    (hext : st.session_externally_managed = true)
    (h : Tools.ensure_session st = .ok st1) : st1 = st := by
  unfold Tools.ensure_session at h
  rw [hext] at h
  split at h
  · exact absurd h (by simp)
  · simp only [Except.ok.injEq] at h
    exact h.symm

/-- `close` never changes the ownership flag. -/
theorem close_flag (st : ToolsState) :
    (Tools.close st).session_externally_managed = st.session_externally_managed := by
  unfold Tools.close
  split
  · split <;> rfl
  · rfl

/-- `close` is idempotent. -/
theorem close_idem (st : ToolsState) :
    Tools.close (Tools.close st) = Tools.close st := by
  unfold Tools.close
  rcases hs : st.session with _ | s
  · simp [hs]
  · rcases hext : st.session_externally_managed with _ | _ <;>
      rcases hc : s.closed with _ | _ <;>
      simp [hs, hext, hc, Session.doClose]

/-- A completed Discord send whose session check succeeded leaves the
instance in the state `_ensure_session` produced. -/
theorem send_message_state_of_ensure_ok (st st1 : ToolsState) (dv : DiscordValves)
    (msg : String) (post : PostOutcome) (out : SendOutcome DiscordRequest)
    (hE : Tools.ensure_session st = .ok st1)
    (h : Tools.send_message st dv msg post = .ok out) : out.state = st1 := by
  unfold Tools.send_message at h
  rw [hE] at h
  rcases post with r | m | m
  · by_cases h204 : (r.status == 204) = true <;>
      simp only [h204, if_pos, if_neg, Bool.false_eq_true, Except.ok.injEq,
        reduceIte] at h <;>
      (subst h; rfl)
  · simp only [Except.ok.injEq] at h
    subst h; rfl
  · simp only [Except.ok.injEq] at h
    subst h; rfl

/-- A completed Telegram send whose session check succeeded leaves the
instance in the state `_ensure_session` produced. -/
theorem send_telegram_state_of_ensure_ok (st st1 : ToolsState) (tv : TelegramValves)
    (msg : String) (post : PostOutcome) (out : SendOutcome TelegramRequest)
    (hE : Tools.ensure_session st = .ok st1)
    (h : Tools.send_telegram_message st tv msg post = .ok out) : out.state = st1 := by
  unfold Tools.send_telegram_message at h
  rw [hE] at h
  rcases post with r | m | m
  · by_cases h200 : (r.status == 200) = true
    · rcases hjf : r.jsonFields with _ | body
      · simp only [h200, hjf, if_pos, reduceIte, Except.ok.injEq] at h
        subst h; rfl
      · by_cases hT : optTruthy (jsonGet body "ok") = true <;>
          simp only [h200, hjf, hT, if_pos, if_neg, Bool.false_eq_true,
            reduceIte, Except.ok.injEq] at h <;>
          (subst h; rfl)
    · simp only [h200, Bool.false_eq_true, reduceIte, Except.ok.injEq] at h
      subst h; rfl
  · simp only [Except.ok.injEq] at h
    subst h; rfl
  · simp only [Except.ok.injEq] at h
    subst h; rfl

/-- A Discord send never changes the ownership flag. -/
theorem send_message_flag (st : ToolsState) (dv : DiscordValves)
    (msg : String) (post : PostOutcome) (out : SendOutcome DiscordRequest)
    (h : Tools.send_message st dv msg post = .ok out) :
    out.state.session_externally_managed = st.session_externally_managed := by
  rcases hE : Tools.ensure_session st with e | st1
  · unfold Tools.send_message at h
    rw [hE] at h
    rcases e with m | m | m <;>
      (simp only [Except.ok.injEq] at h; subst h; rfl)
  · rw [send_message_state_of_ensure_ok st st1 dv msg post out hE h]
    exact ensure_session_flag st st1 hE

/-- A Telegram send never changes the ownership flag. -/
theorem send_telegram_flag (st : ToolsState) (tv : TelegramValves)
    (msg : String) (post : PostOutcome) (out : SendOutcome TelegramRequest)
    (h : Tools.send_telegram_message st tv msg post = .ok out) :
    out.state.session_externally_managed = st.session_externally_managed := by
  rcases hE : Tools.ensure_session st with e | st1
  · unfold Tools.send_telegram_message at h
    rw [hE] at h
    rcases e with m | m | m <;>
      (simp only [Except.ok.injEq] at h; subst h; rfl)
  · rw [send_telegram_state_of_ensure_ok st st1 tv msg post out hE h]
    exact ensure_session_flag st st1 hE

/-!  Theorems. -/

/-- C1 (counterexample): with an externally supplied session that is
closed at send time, neither `send_message` nor `send_telegram_message`
lets the resource error out of `_ensure_session` propagate: both calls
return normally with result `False` — refuting the claim that the sender
raises rather than returning false. -/
theorem c1_resource_error_propagates_cex :
    (raisesOut (Tools.send_message (Tools.init (some closedSession)) dvFix "hello"
        (.response resp204)) = false
      ∧ returnedResult (Tools.send_message (Tools.init (some closedSession)) dvFix "hello"
        (.response resp204)) = some false)
    ∧ (raisesOut (Tools.send_telegram_message (Tools.init (some closedSession)) tvFix "hello"
        (.response respOkTrue)) = false
      ∧ returnedResult (Tools.send_telegram_message (Tools.init (some closedSession)) tvFix "hello"
        (.response respOkTrue)) = some false) :=
  ⟨⟨rfl, rfl⟩, ⟨rfl, rfl⟩⟩

/-- C1 (amended): if the session is externally managed and closed or
absent at send time, the `RuntimeError` raised by `_ensure_session` is
caught by the sender's catch-all `except Exception` handler: the send call
returns `False` (with an unexpected-error log line) instead of raising,
for both the Discord and the Telegram sender. -/
theorem c1_resource_error_swallowed (st : ToolsState) (dv : DiscordValves)
    (tv : TelegramValves) (msg : String) (post : PostOutcome)
    (hext : st.session_externally_managed = true)
    (hbad : sessionAbsentOrClosed st = true) :
    (raisesOut (Tools.send_message st dv msg post) = false
      ∧ returnedResult (Tools.send_message st dv msg post) = some false
      ∧ ("An unexpected error occurred while sending the message: External aiohttp session is closed or was not provided.")
          ∈ returnedLogs (Tools.send_message st dv msg post))
    ∧ (raisesOut (Tools.send_telegram_message st tv msg post) = false
      ∧ returnedResult (Tools.send_telegram_message st tv msg post) = some false
      ∧ ("An unexpected error occurred while sending the message: External aiohttp session is closed or was not provided.")
          ∈ returnedLogs (Tools.send_telegram_message st tv msg post)) := by
  simp [Tools.send_message, Tools.send_telegram_message, Tools.ensure_session,
    hext, hbad, raisesOut, returnedResult, returnedLogs]

/-- Witness for C1 (amended) at a concrete closed external session. -/
theorem c1_resource_error_swallowed_wit :
    ((Tools.init (some closedSession)).session_externally_managed = true
      ∧ sessionAbsentOrClosed (Tools.init (some closedSession)) = true)
    ∧ ((raisesOut (Tools.send_message (Tools.init (some closedSession)) dvFix "m"
          (.otherError "boom")) = false
        ∧ returnedResult (Tools.send_message (Tools.init (some closedSession)) dvFix "m"
          (.otherError "boom")) = some false
        ∧ ("An unexpected error occurred while sending the message: External aiohttp session is closed or was not provided.")
            ∈ returnedLogs (Tools.send_message (Tools.init (some closedSession)) dvFix "m"
              (.otherError "boom")))
      ∧ (raisesOut (Tools.send_telegram_message (Tools.init (some closedSession)) tvFix "m"
          (.otherError "boom")) = false
        ∧ returnedResult (Tools.send_telegram_message (Tools.init (some closedSession)) tvFix "m"
          (.otherError "boom")) = some false
        ∧ ("An unexpected error occurred while sending the message: External aiohttp session is closed or was not provided.")
            ∈ returnedLogs (Tools.send_telegram_message (Tools.init (some closedSession)) tvFix "m"
              (.otherError "boom")))) :=
  ⟨⟨rfl, rfl⟩,
    c1_resource_error_swallowed (Tools.init (some closedSession)) dvFix tvFix
      "m" (.otherError "boom") rfl rfl⟩

/-- C2: any error raised by the `session.post` call — a transport-level
`aiohttp.ClientError` or any other unexpected exception — is caught
inside the send path: the call returns `False` and no exception
propagates to the caller, for both platforms and regardless of instance
state or message. -/
theorem c2_post_errors_swallowed (st : ToolsState) (dv : DiscordValves)
    (tv : TelegramValves) (msg : String) (post : PostOutcome)
    (herr : post.isErr = true) :
    (raisesOut (Tools.send_message st dv msg post) = false
      ∧ returnedResult (Tools.send_message st dv msg post) = some false)
    ∧ (raisesOut (Tools.send_telegram_message st tv msg post) = false
      ∧ returnedResult (Tools.send_telegram_message st tv msg post) = some false) := by
  cases post with
  | response r => simp [PostOutcome.isErr] at herr
  | clientError m =>
    unfold Tools.send_message Tools.send_telegram_message
    rcases hE : Tools.ensure_session st with e | st1
    · cases e <;> simp [raisesOut, returnedResult]
    · simp [raisesOut, returnedResult]
  | otherError m =>
    unfold Tools.send_message Tools.send_telegram_message
    rcases hE : Tools.ensure_session st with e | st1
    · cases e <;> simp [raisesOut, returnedResult]
    · simp [raisesOut, returnedResult]

/-- Witness for C2 at a concrete instance and transport error. -/
theorem c2_post_errors_swallowed_wit :
    (PostOutcome.isErr (.clientError "conn reset") = true)
    ∧ ((raisesOut (Tools.send_message (Tools.init none) dvFix "m"
          (.clientError "conn reset")) = false
        ∧ returnedResult (Tools.send_message (Tools.init none) dvFix "m"
          (.clientError "conn reset")) = some false)
      ∧ (raisesOut (Tools.send_telegram_message (Tools.init none) tvFix "m"
          (.clientError "conn reset")) = false
        ∧ returnedResult (Tools.send_telegram_message (Tools.init none) tvFix "m"
          (.clientError "conn reset")) = some false)) :=
  ⟨rfl, c2_post_errors_swallowed (Tools.init none) dvFix tvFix "m"
    (.clientError "conn reset") rfl⟩

/-- C3: with a usable session, the Telegram send returns `True` exactly
when the HTTP status is 200 and the decoded body's `ok` field is truthy;
an HTTP 200 body with a falsy `ok` yields `False` and logs the body's
`description`; every non-200 status yields `False`. -/
theorem c3_telegram_classification (st st1 : ToolsState) (tv : TelegramValves)
    (msg : String) (r : HttpResponse) (body : List (String × JsonVal)) (d : String)
    (hok : Tools.ensure_session st = .ok st1) :
    (returnedResult (Tools.send_telegram_message st tv msg (.response r))
      = some (r.status == 200 && responseOkTruthy r.jsonFields))
    ∧ (r.status = 200 → r.jsonFields = some body →
        optTruthy (jsonGet body "ok") = false →
        jsonGet body "description" = some (JsonVal.str d) →
        ("Failed to send message. Telegram API returned error: " ++ d)
          ∈ returnedLogs (Tools.send_telegram_message st tv msg (.response r))) := by
  unfold Tools.send_telegram_message
  rw [hok]
  constructor
  · rcases h200 : r.status == 200 with _ | _
    · simp [h200, returnedResult]
    · rcases hjf : r.jsonFields with _ | body
      · simp [h200, hjf, returnedResult, responseOkTruthy]
      · rcases hT : optTruthy (jsonGet body "ok") with _ | _ <;>
          simp [h200, hjf, hT, returnedResult, responseOkTruthy]
  · intro h200 hjf hT hd
    simp [h200, hjf, hT, hd, returnedLogs, JsonVal.pyStr]

/-- Witness for C3 at a fresh internal session and the logical-failure
response fixture. -/
theorem c3_telegram_classification_wit :
    (Tools.ensure_session (Tools.init none) = .ok freshInternalState)
    ∧ ((returnedResult (Tools.send_telegram_message (Tools.init none) tvFix "m"
          (.response respOkFalse))
        = some (respOkFalse.status == 200 && responseOkTruthy respOkFalse.jsonFields))
      ∧ (respOkFalse.status = 200 →
          respOkFalse.jsonFields
            = some [("ok", JsonVal.bool false), ("description", JsonVal.str "x")] →
          optTruthy (jsonGet [("ok", JsonVal.bool false), ("description", JsonVal.str "x")] "ok") = false →
          jsonGet [("ok", JsonVal.bool false), ("description", JsonVal.str "x")] "description"
            = some (JsonVal.str "x") →
          ("Failed to send message. Telegram API returned error: " ++ "x")
            ∈ returnedLogs (Tools.send_telegram_message (Tools.init none) tvFix "m"
              (.response respOkFalse)))) :=
  ⟨rfl, c3_telegram_classification (Tools.init none) freshInternalState tvFix
    "m" respOkFalse [("ok", JsonVal.bool false), ("description", JsonVal.str "x")] "x" rfl⟩

/-- C4: with a usable session, the Discord send returns `True` exactly
when the HTTP status is 204; any other status yields `False` and logs the
status together with the response body. -/
theorem c4_discord_classification (st st1 : ToolsState) (dv : DiscordValves)
    (msg : String) (r : HttpResponse)
    (hok : Tools.ensure_session st = .ok st1) :
    (returnedResult (Tools.send_message st dv msg (.response r))
      = some (r.status == 204))
    ∧ (r.status ≠ 204 →
        ("Failed to send message. Status: " ++ toString r.status ++ ", Response: " ++ r.text)
          ∈ returnedLogs (Tools.send_message st dv msg (.response r))) := by
  unfold Tools.send_message
  rw [hok]
  constructor
  · rcases h204 : r.status == 204 with _ | _ <;> simp [h204, returnedResult]
  · intro hne
    simp [hne, returnedLogs]

/-- Witness for C4 at a fresh internal session and a 403 response. -/
theorem c4_discord_classification_wit :
    (Tools.ensure_session (Tools.init none) = .ok freshInternalState)
    ∧ ((returnedResult (Tools.send_message (Tools.init none) dvFix "m" (.response resp403))
        = some (resp403.status == 204))
      ∧ (resp403.status ≠ 204 →
          ("Failed to send message. Status: " ++ toString resp403.status ++ ", Response: " ++ resp403.text)
            ∈ returnedLogs (Tools.send_message (Tools.init none) dvFix "m" (.response resp403)))) :=
  ⟨rfl, c4_discord_classification (Tools.init none) freshInternalState dvFix
    "m" resp403 rfl⟩

/-- C5: once the session is usable, the content actually placed in the
outgoing request payload is the message truncated to the platform limit:
exactly the first 2000 (Discord) / 4096 (Telegram) characters when the
message is longer, and the unmodified message otherwise. -/
theorem c5_truncation (st st1 : ToolsState) (dv : DiscordValves)
    (tv : TelegramValves) (msg : String) (post : PostOutcome)
    (hok : Tools.ensure_session st = .ok st1) :
    (msg.length > 2000 →
      sentContent (Tools.send_message st dv msg post) = some (msg.take 2000))
    ∧ (msg.length ≤ 2000 →
      sentContent (Tools.send_message st dv msg post) = some msg)
    ∧ (msg.length > 4096 →
      sentText (Tools.send_telegram_message st tv msg post) = some (msg.take 4096))
    ∧ (msg.length ≤ 4096 →
      sentText (Tools.send_telegram_message st tv msg post) = some msg) := by
  unfold Tools.send_message Tools.send_telegram_message
  rw [hok]
  refine ⟨fun hgt => ?_, fun hle => ?_, fun hgt => ?_, fun hle => ?_⟩
  · rcases post with r | m | m
    · rcases h204 : r.status == 204 with _ | _ <;> simp [h204, hgt, sentContent]
    · simp [hgt, sentContent]
    · simp [hgt, sentContent]
  · have hgt : ¬ msg.length > 2000 := by omega
    rcases post with r | m | m
    · rcases h204 : r.status == 204 with _ | _ <;> simp [h204, hgt, sentContent]
    · simp [hgt, sentContent]
    · simp [hgt, sentContent]
  · rcases post with r | m | m
    · rcases h200 : r.status == 200 with _ | _
      · simp [h200, hgt, sentText]
      · rcases hjf : r.jsonFields with _ | body
        · simp [h200, hjf, hgt, sentText]
        · rcases hT : optTruthy (jsonGet body "ok") with _ | _ <;>
            simp [h200, hjf, hT, hgt, sentText]
    · simp [hgt, sentText]
    · simp [hgt, sentText]
  · have hgt : ¬ msg.length > 4096 := by omega
    rcases post with r | m | m
    · rcases h200 : r.status == 200 with _ | _
      · simp [h200, hgt, sentText]
      · rcases hjf : r.jsonFields with _ | body
        · simp [h200, hjf, hgt, sentText]
        · rcases hT : optTruthy (jsonGet body "ok") with _ | _ <;>
            simp [h200, hjf, hT, hgt, sentText]
    · simp [hgt, sentText]
    · simp [hgt, sentText]

/-- Witness for C5 at a fresh internal session and a short message. -/
theorem c5_truncation_wit :
    (Tools.ensure_session (Tools.init none) = .ok freshInternalState)
    ∧ ((String.length "hi" > 2000 →
        sentContent (Tools.send_message (Tools.init none) dvFix "hi" (.response resp204))
          = some (String.take "hi" 2000))
      ∧ (String.length "hi" ≤ 2000 →
        sentContent (Tools.send_message (Tools.init none) dvFix "hi" (.response resp204))
          = some "hi")
      ∧ (String.length "hi" > 4096 →
        sentText (Tools.send_telegram_message (Tools.init none) tvFix "hi" (.response resp204))
          = some (String.take "hi" 4096))
      ∧ (String.length "hi" ≤ 4096 →
        sentText (Tools.send_telegram_message (Tools.init none) tvFix "hi" (.response resp204))
          = some "hi")) :=
  ⟨rfl, c5_truncation (Tools.init none) freshInternalState dvFix tvFix
    "hi" (.response resp204) rfl⟩

/-- C6: `_ensure_session` satisfies the three-case contract and is
idempotent: an existing open session is left untouched; an absent or
closed session on an internally managed instance is replaced by a fresh
internally-owned one; an absent or closed session on an externally
managed instance makes it raise the resource error, without creating a
replacement (the call produces an error, not a new state). -/
theorem c6_ensure_session_contract (st st1 : ToolsState) (s : Session) :
    (st.session = some s → s.closed = false → Tools.ensure_session st = .ok st)
    ∧ (sessionAbsentOrClosed st = true → st.session_externally_managed = false →
        Tools.ensure_session st = .ok freshInternalState)
    ∧ (sessionAbsentOrClosed st = true → st.session_externally_managed = true →
        Tools.ensure_session st
          = .error (PyError.resourceError "External aiohttp session is closed or was not provided."))
    ∧ (Tools.ensure_session st = .ok st1 → Tools.ensure_session st1 = .ok st1) := by
  refine ⟨fun hs hc => ?_, fun hA hO => ?_, fun hA hE => ?_, fun h => ?_⟩
  · simp [Tools.ensure_session, sessionAbsentOrClosed, hs, hc]
  · simp [Tools.ensure_session, hA, hO, freshInternalState]
  · simp [Tools.ensure_session, hA, hE]
  · unfold Tools.ensure_session at h
    split at h
    · split at h
      · exact absurd h (by simp)
      · simp only [Except.ok.injEq] at h
        subst h
        simp [Tools.ensure_session, sessionAbsentOrClosed, Session.fresh]
    · next hA =>
        simp only [Except.ok.injEq] at h
        subst h
        simp [Tools.ensure_session, hA]

/-- Witness for C6 at the internally managed, session-less start state. -/
theorem c6_ensure_session_contract_wit :
    ((Tools.init none).session = some openSession → openSession.closed = false →
        Tools.ensure_session (Tools.init none) = .ok (Tools.init none))
    ∧ (sessionAbsentOrClosed (Tools.init none) = true →
        (Tools.init none).session_externally_managed = false →
        Tools.ensure_session (Tools.init none) = .ok freshInternalState)
    ∧ (sessionAbsentOrClosed (Tools.init none) = true →
        (Tools.init none).session_externally_managed = true →
        Tools.ensure_session (Tools.init none)
          = .error (PyError.resourceError "External aiohttp session is closed or was not provided."))
    ∧ (Tools.ensure_session (Tools.init none) = .ok freshInternalState →
        Tools.ensure_session freshInternalState = .ok freshInternalState) :=
  c6_ensure_session_contract (Tools.init none) freshInternalState openSession

/-- C7: `close` is ownership-respecting and idempotent: it closes the
session exactly when that session is internally managed, present and
open, and is a no-op in every other case; repeated calls (`close` is
total — it has no raise path) collapse to a single call and increase the
close count at most once; an externally supplied session is never
closed, so after construct-with-supplied-session / send / close the
supplied open session is still held unchanged. -/
theorem c7_close_contract (st : ToolsState) (s : Session) (n : Nat)
    (dv : DiscordValves) (tv : TelegramValves) (msg : String) (post : PostOutcome)
    (dout : SendOutcome DiscordRequest) (tout : SendOutcome TelegramRequest) :
    (st.session_externally_managed = false → st.session = some s → s.closed = false →
        Tools.close st = { st with session := some s.doClose })
    ∧ (st.session_externally_managed = true → Tools.close st = st)
    ∧ (st.session = none → Tools.close st = st)
    ∧ (st.session = some s → s.closed = true → Tools.close st = st)
    ∧ (Tools.close^[n + 1] st = Tools.close st)
    ∧ (sessionCloseCount (Tools.close st) ≤ sessionCloseCount st + 1)
    ∧ (s.closed = false →
        Tools.send_message (Tools.init (some s)) dv msg post = .ok dout →
        (Tools.close dout.state).session = some s)
    ∧ (s.closed = false →
        Tools.send_telegram_message (Tools.init (some s)) tv msg post = .ok tout →
        (Tools.close tout.state).session = some s) := by
  refine ⟨fun hO hs hc => ?_, fun hE => ?_, fun hs => ?_, fun hs hc => ?_, ?_, ?_,
    fun hc h => ?_, fun hc h => ?_⟩
  · simp [Tools.close, hs, hO, hc]
  · unfold Tools.close
    split
    · simp [hE]
    · rfl
  · simp [Tools.close, hs]
  · simp [Tools.close, hs, hc]
  · induction n with
    | zero => simp
    | succ k ih =>
        rw [Function.iterate_succ_apply', ih]
        exact close_idem st
  · rcases hs2 : st.session with _ | s2
    · simp [Tools.close, sessionCloseCount, hs2]
    · by_cases hg : (!st.session_externally_managed && !s2.closed) = true <;>
        simp [Tools.close, sessionCloseCount, hs2, hg, Session.doClose]
  · have hEq : Tools.ensure_session (Tools.init (some s)) = .ok (Tools.init (some s)) := by
      simp [Tools.ensure_session, sessionAbsentOrClosed, Tools.init, hc]
    rw [send_message_state_of_ensure_ok _ _ dv msg post dout hEq h]
    simp [Tools.close, Tools.init]
  · have hEq : Tools.ensure_session (Tools.init (some s)) = .ok (Tools.init (some s)) := by
      simp [Tools.ensure_session, sessionAbsentOrClosed, Tools.init, hc]
    rw [send_telegram_state_of_ensure_ok _ _ tv msg post tout hEq h]
    simp [Tools.close, Tools.init]

/-- Witness for C7: double close collapses to a single close on a
concrete internally owned open session. -/
theorem c7_close_contract_wit :
    Tools.close^[1 + 1] freshInternalState = Tools.close freshInternalState :=
  (c7_close_contract freshInternalState openSession 1 dvFix tvFix "m"
    (.response resp204) doutFix toutFix).2.2.2.2.1

/-- C8: Telegram construction succeeds exactly when the bot token is
non-empty and the chat id is non-empty and lexically parses as an
integer; each violation raises the corresponding config error at
construction time (the constructor takes no transport, so no network
activity can occur), and a failed construction produces no instance
value. -/
theorem c8_telegram_config_validation (bot chat : String) (sess : Option Session) :
    ((∃ t, TelegramTools.init bot chat sess = .ok t) ↔
      (bot ≠ "" ∧ chat ≠ "" ∧ pyIntParsable chat = true))
    ∧ (bot = "" → TelegramTools.init bot chat sess
        = .error "TELEGRAM_BOT_TOKEN environment variable must be set.")
    ∧ (bot ≠ "" → chat = "" → TelegramTools.init bot chat sess
        = .error "TELEGRAM_CHAT_ID environment variable must be set.")
    ∧ (bot ≠ "" → chat ≠ "" → pyIntParsable chat = false →
        TelegramTools.init bot chat sess
          = .error "TELEGRAM_CHAT_ID must be a valid integer representing the chat ID.") := by
  refine ⟨⟨?_, ?_⟩, fun hb => ?_, fun hb hch => ?_, fun hb hch hP => ?_⟩
  · rintro ⟨t, ht⟩
    by_cases hb : bot = ""
    · simp [TelegramTools.init, TelegramValves.make, validate_bot_token, hb] at ht
    · by_cases hch : chat = ""
      · simp [TelegramTools.init, TelegramValves.make, validate_bot_token,
          validate_chat_id, hb, hch] at ht
      · by_cases hP : pyIntParsable chat = true
        · exact ⟨hb, hch, hP⟩
        · rw [Bool.not_eq_true] at hP
          simp [TelegramTools.init, TelegramValves.make, validate_bot_token,
            validate_chat_id, hb, hch, hP] at ht
  · rintro ⟨hb, hch, hP⟩
    refine ⟨{ valves := { TELEGRAM_BOT_TOKEN := bot, TELEGRAM_CHAT_ID := chat },
              state := Tools.init sess }, ?_⟩
    simp [TelegramTools.init, TelegramValves.make, validate_bot_token,
      validate_chat_id, hb, hch, hP]
  · simp [TelegramTools.init, TelegramValves.make, validate_bot_token, hb]
  · simp [TelegramTools.init, TelegramValves.make, validate_bot_token,
      validate_chat_id, hb, hch]
  · simp [TelegramTools.init, TelegramValves.make, validate_bot_token,
      validate_chat_id, hb, hch, hP]

/-- Witness for C8 at a concrete valid configuration. -/
theorem c8_telegram_config_validation_wit :
    (∃ t, TelegramTools.init "t" "1" none = .ok t) ↔
      ("t" ≠ "" ∧ "1" ≠ "" ∧ pyIntParsable "1" = true) :=
  (c8_telegram_config_validation "t" "1" none).1

/-- C9: Discord construction fails with the config error exactly when the
webhook URL is empty; every non-empty URL that does not start with the
expected Discord webhook prefix still constructs successfully, producing
a warning log instead of an error. -/
theorem c9_discord_config_validation (url : String) (sess : Option Session) :
    ((∃ p, DiscordTools.init url sess = .ok p) ↔ url ≠ "")
    ∧ (url = "" → DiscordTools.init url sess
        = .error "DISCORD_WEBHOOK_URL environment variable must be set.")
    ∧ (url ≠ "" → url.startsWith discordWebhookUrlStart = false →
        DiscordTools.init url sess
          = .ok ({ valves := { WEBHOOK_URL := url }, state := Tools.init sess },
              ["Webhook URL does not look like a standard Discord webhook URL."])) := by
  refine ⟨⟨?_, ?_⟩, fun he => ?_, fun hne hpre => ?_⟩
  · rintro ⟨p, hp⟩ he
    simp [DiscordTools.init, DiscordValves.make, he] at hp
  · intro hne
    by_cases hpre : url.startsWith discordWebhookUrlStart = true
    · refine ⟨({ valves := { WEBHOOK_URL := url }, state := Tools.init sess }, []), ?_⟩
      simp [DiscordTools.init, DiscordValves.make, hne, hpre]
    · rw [Bool.not_eq_true] at hpre
      refine ⟨({ valves := { WEBHOOK_URL := url }, state := Tools.init sess },
        ["Webhook URL does not look like a standard Discord webhook URL."]), ?_⟩
      simp [DiscordTools.init, DiscordValves.make, hne, hpre]
  · simp [DiscordTools.init, DiscordValves.make, he]
  · simp [DiscordTools.init, DiscordValves.make, hne, hpre]

/-- Witness for C9 at a concrete non-empty, non-Discord-shaped URL. -/
theorem c9_discord_config_validation_wit :
    (∃ p, DiscordTools.init "https://example.com/hook" none = .ok p) ↔
      "https://example.com/hook" ≠ "" :=
  (c9_discord_config_validation "https://example.com/hook" none).1

/-- C10: the externally-managed flag fixed at construction is preserved
by every operation — `_ensure_session`, both sends, `close`, and the
`__aenter__`/`__aexit__` lifecycle guard — and a successful
`_ensure_session` on an externally managed instance never replaces the
held session with an internally created one. -/
theorem c10_ownership_invariant (st st1 st2 : ToolsState) (s : Session)
    (dv : DiscordValves) (tv : TelegramValves) (msg : String) (post : PostOutcome)
    (dout : SendOutcome DiscordRequest) (tout : SendOutcome TelegramRequest) :
    ((Tools.init (some s)).session_externally_managed = true)
    ∧ ((Tools.init none).session_externally_managed = false)
    ∧ (Tools.ensure_session st = .ok st1 →
        st1.session_externally_managed = st.session_externally_managed)
    ∧ (Tools.send_message st dv msg post = .ok dout →
        dout.state.session_externally_managed = st.session_externally_managed)
    ∧ (Tools.send_telegram_message st tv msg post = .ok tout →
        tout.state.session_externally_managed = st.session_externally_managed)
    ∧ ((Tools.close st).session_externally_managed = st.session_externally_managed)
    ∧ (Tools.aenter st = .ok st2 →
        st2.session_externally_managed = st.session_externally_managed)
    ∧ ((Tools.aexit st).session_externally_managed = st.session_externally_managed)
    ∧ (st.session_externally_managed = true → Tools.ensure_session st = .ok st1 →
        st1.session = st.session) := by
  refine ⟨rfl, rfl, fun h => ensure_session_flag st st1 h,
    fun h => send_message_flag st dv msg post dout h,
    fun h => send_telegram_flag st tv msg post tout h,
    close_flag st,
    fun h => ensure_session_flag st st2 h,
    close_flag st,
    fun hext h => ?_⟩
  rw [ensure_session_external_noop st st1 hext h]

/-- Witness for C10: `close` preserves the ownership flag at a concrete
state. -/
theorem c10_ownership_invariant_wit :
    (Tools.close freshInternalState).session_externally_managed
      = freshInternalState.session_externally_managed :=
  (c10_ownership_invariant freshInternalState freshInternalState freshInternalState
    openSession dvFix tvFix "m" (.response resp204) doutFix toutFix).2.2.2.2.2.1

end Messaging
